import Mathlib

/-
Shallow embedding of the go package `result` (github.com/bmheenan/result).

Verification development covering the result containers (Status, Val, Vals),
their terminal operations (OrError, OrDoAndReturn, OrPanic, OrUse), the panic
payload types (panicToReturn, panicToError from errors.go), and the three
handler installers (HandleReturn, HandleError, Handle from handlers.go),
together with a small model of go's panic/defer stack unwinding.

Modelling conventions:
  - go `error` interface values are `Option GoError`; a `GoError` carries the
    string its `Error()` method returns (the only observation the package
    makes of an error).
  - `fmt.Errorf("%v: %v", a, err)` is modelled by `fmtCtxErr`, producing the
    formatted message, since `%v` on an error prints `err.Error()`.
  - a terminal operation that can panic returns `Except PanicPayload α`:
    `.ok` is a normal return, `.error p` is a panic with payload `p`.
  - the callback of `OrDoAndReturn` / `OrDo` is modelled as a state
    transformer `f : GoError → σ → σ` threaded explicitly, so that "f is
    invoked exactly once with e" is visible as a single application `f e`.
  - a deferred handler in a function activation is a `Frame`; `runFrame`
    gives the effect of that activation's deferred handler on a panic in
    progress, and `unwind` propagates a panic payload outward through a list
    of frames (innermost first), as go's stack unwinding does.  A frame whose
    handler recovers the panic stops the unwind; frames above it later run
    their deferred handlers with `recover() = nil`, which (as proved for
    claim C10) leaves them unchanged, so they are left untouched.
-/

namespace result

/-- A go error value, observed through its `Error() string` method. -/
structure GoError where
  Error : String
deriving DecidableEq, Repr

/-- Models `fmt.Errorf("%v: %v", a, err)`: the `%v` verb on an error prints
`err.Error()`, so the produced error's message is `a ++ ": " ++ err.Error`. -/
def fmtCtxErr (a : String) (err : GoError) : GoError :=
  ⟨a ++ ": " ++ err.Error⟩

/-- `panicToReturn.Error()` from errors.go (a fixed string, the carried error
is not printed). -/
def panicToReturnMessage : String :=
  "Unrecovered panic from result. Use `defer result.HandleReturn()`, `defer result.HandleStatus(&v)`, or `defer result.HandleErr(&err)` at the top of the func to convert the panic into a return"

/-- `panicToError.Error()` from errors.go: a fixed prefix followed by the
carried error's message. -/
def panicToErrorMessage (e : GoError) : String :=
  "Unrecovered panic from result. Use `defer result.HandleStatus(&v)` or `defer result.HandleErr(&err)` at the top of the func to convert the panic into a returned result or error: " ++ e.Error

/-- The dynamic type of a go panic payload as the handlers observe it:
`toReturn` is `panicToReturn{err}`, `toError` is `panicToError{err}` (the two
protocol signal types from errors.go), `errValue` is an ordinary error value
(such as the one `OrPanic` panics with), and `other` is any non-error payload
(such as `panic("some string")`). -/
inductive PanicPayload where
  | toReturn (err : GoError)
  | toError (err : GoError)
  | errValue (err : GoError)
  | other (s : String)
deriving DecidableEq, Repr

/-- Whether a payload is one of the two protocol signal types that the
handlers' type assertions recognize. -/
def isSignal : PanicPayload → Bool
  | .toReturn _ => true
  | .toError _ => true
  | _ => false

/-- The message go's process-level failure reporter prints for an uncaught
panic: for an error payload, its `Error()` method; for a plain value, the
value itself. -/
def PanicPayload.errorMessage : PanicPayload → String
  | .toReturn _ => panicToReturnMessage
  | .toError e => panicToErrorMessage e
  | .errValue e => e.Error
  | .other s => s

/-- `base` from baseres.go: the err field shared by all result containers.
A nil go error is `none`. -/
structure base where
  err : Option GoError
deriving DecidableEq, Repr

/-- `base.Ok` from baseres.go: `return b.err == nil`. -/
def base.Ok (b : base) : Bool :=
  b.err.isNone

/-- `(*base).setError` from baseres.go: `b.err = err`. -/
def base.setError (b : base) (err : GoError) : base :=
  { b with err := some err }

/-- `base.Error` from baseres.go: `""` when err is nil, else `err.Error()`. -/
def base.Error (b : base) : String :=
  match b.err with
  | none => ""
  | some e => e.Error

/-- `Status` from baseres.go. -/
structure Status extends base
deriving DecidableEq, Repr

/-- `Ok()` constructor: the zero-valued `Status{}`. -/
def Ok : Status :=
  ⟨⟨none⟩⟩

/-- `Error(err)` constructor for `Status`. -/
def Error (err : Option GoError) : Status :=
  ⟨⟨err⟩⟩

/-- `Errorf(s, args...)` constructor for `Status`; `s` stands for the already
formatted `fmt.Errorf` output. -/
def Errorf (s : String) : Status :=
  ⟨⟨some ⟨s⟩⟩⟩

/-- `Try(err)` from baseres.go: `Ok()` on nil, else `Error(err)`. -/
def Try (err : Option GoError) : Status :=
  match err with
  | none => Ok
  | some e => Error (some e)

/-- `Val` from val.go: `base` plus one held value.  An error `Val` holds the
zero value of `T`, modelled by `Inhabited.default` at construction. -/
structure Val (T : Type) extends base where
  v : T
deriving DecidableEq, Repr

/-- `NewVal(v)` from val.go. -/
def NewVal {T : Type} (v : T) : Val T :=
  ⟨⟨none⟩, v⟩

/-- `ValError[T](err)` from val.go: the zero `Val[T]{}` with its err set. -/
def ValError (T : Type) [Inhabited T] (err : Option GoError) : Val T :=
  ⟨⟨err⟩, default⟩

/-- `ValErrorf[T](s, args...)` from val.go; `s` stands for the formatted
`fmt.Errorf` output. -/
def ValErrorf (T : Type) [Inhabited T] (s : String) : Val T :=
  ⟨⟨some ⟨s⟩⟩, default⟩

/-- `TryVal(v, err)` from val.go. -/
def TryVal {T : Type} [Inhabited T] (v : T) (err : Option GoError) : Val T :=
  match err with
  | none => NewVal v
  | some e => ValError T (some e)

/-- `FromSlice(s, i)` from val.go: in bounds, `NewVal(s[i])`; out of bounds,
`ValErrorf[T]("Index %v out of bounds for slice of len %v", i, len(s))`. -/
def FromSlice {T : Type} [Inhabited T] (s : List T) (i : Int) : Val T :=
  if i < 0 ∨ (s.length : Int) ≤ i then
    ValError T (some ⟨"Index " ++ toString i ++ " out of bounds for slice of len " ++ toString s.length⟩)
  else
    NewVal (s.getD i.toNat default)

/-- `Vals` from the vals file (in handlers.go): `base` plus two held values. -/
structure Vals (T U : Type) extends base where
  v0 : T
  v1 : U
deriving DecidableEq, Repr

/-- `NewVals(v0, v1)`. -/
def NewVals {T U : Type} (v0 : T) (v1 : U) : Vals T U :=
  ⟨⟨none⟩, v0, v1⟩

/-- `ValsError[T, U](err)`: the zero `Vals[T, U]{}` with its err set. -/
def ValsError (T U : Type) [Inhabited T] [Inhabited U] (err : Option GoError) : Vals T U :=
  ⟨⟨err⟩, default, default⟩

/-- `ValsErrorf[T, U](s, args...)`; `s` stands for the formatted output. -/
def ValsErrorf (T U : Type) [Inhabited T] [Inhabited U] (s : String) : Vals T U :=
  ⟨⟨some ⟨s⟩⟩, default, default⟩

/-- `TryVals(v0, v1, err)`. -/
def TryVals {T U : Type} [Inhabited T] [Inhabited U] (v0 : T) (v1 : U) (err : Option GoError) : Vals T U :=
  match err with
  | none => NewVals v0 v1
  | some e => ValsError T U (some e)

/-- `Status.OrError(e)` from baseres.go: nothing when ok, else panic with
`panicToError{fmt.Errorf("%v: %v", e, s.err)}`. -/
def Status.OrError (s : Status) (e : String) : Except PanicPayload Unit :=
  match s.err with
  | none => .ok ()
  | some err => .error (.toError (fmtCtxErr e err))

/-- `Val.OrError(e)` from val.go: the held value when ok, else panic with
`panicToError{fmt.Errorf("%v: %v", e, v.err)}`. -/
def Val.OrError {T : Type} (v : Val T) (e : String) : Except PanicPayload T :=
  match v.err with
  | none => .ok v.v
  | some err => .error (.toError (fmtCtxErr e err))

/-- `Vals.OrError(e)`: the held values when ok, else panic with
`panicToError{fmt.Errorf("%v: %v", e, v.err)}`. -/
def Vals.OrError {T U : Type} (v : Vals T U) (e : String) : Except PanicPayload (T × U) :=
  match v.err with
  | none => .ok (v.v0, v.v1)
  | some err => .error (.toError (fmtCtxErr e err))

/-- `Status.OrDoAndReturn(f)` from baseres.go: nothing when ok; else run
`f(s.err)` once, then panic with `panicToReturn{s.err}`.  The callback is a
state transformer threaded explicitly. -/
def Status.OrDoAndReturn {σ : Type} (s : Status) (f : GoError → σ → σ) (st : σ) :
    σ × Except PanicPayload Unit :=
  match s.err with
  | none => (st, .ok ())
  | some e => (f e st, .error (.toReturn e))

/-- `Val.OrDoAndReturn(f)` from val.go: the held value when ok; else run
`f(v.err)` once, then panic with `panicToReturn{v.err}`. -/
def Val.OrDoAndReturn {T σ : Type} (v : Val T) (f : GoError → σ → σ) (st : σ) :
    σ × Except PanicPayload T :=
  match v.err with
  | none => (st, .ok v.v)
  | some e => (f e st, .error (.toReturn e))

/-- `Vals.OrDoAndReturn(f)`: the held values when ok; else run `f(v.err)`
once, then panic with `panicToReturn{v.err}`. -/
def Vals.OrDoAndReturn {T U σ : Type} (v : Vals T U) (f : GoError → σ → σ) (st : σ) :
    σ × Except PanicPayload (T × U) :=
  match v.err with
  | none => (st, .ok (v.v0, v.v1))
  | some e => (f e st, .error (.toReturn e))

/-- `Status.OrPanic(p)` from baseres.go: nothing when ok, else
`panic(fmt.Errorf("%v: %v", p, s.err))` — an ordinary error payload, not a
protocol signal. -/
def Status.OrPanic (s : Status) (p : String) : Except PanicPayload Unit :=
  match s.err with
  | none => .ok ()
  | some e => .error (.errValue (fmtCtxErr p e))

/-- `Val.OrPanic(p)` from val.go. -/
def Val.OrPanic {T : Type} (v : Val T) (p : String) : Except PanicPayload T :=
  match v.err with
  | none => .ok v.v
  | some e => .error (.errValue (fmtCtxErr p e))

/-- `Vals.OrPanic(p)`. -/
def Vals.OrPanic {T U : Type} (v : Vals T U) (p : String) : Except PanicPayload (T × U) :=
  match v.err with
  | none => .ok (v.v0, v.v1)
  | some e => .error (.errValue (fmtCtxErr p e))

/-- `Status.OrDo(f)` from baseres.go: run `f(s.err)` when there is an error,
else nothing. -/
def Status.OrDo {σ : Type} (s : Status) (f : GoError → σ → σ) (st : σ) : σ :=
  match s.err with
  | none => st
  | some e => f e st

/-- `Val.OrUse(s)` from val.go: the held value when ok, else the default. -/
def Val.OrUse {T : Type} (v : Val T) (s : T) : T :=
  match v.err with
  | none => v.v
  | some _ => s

/-- `Vals.OrUse(s0, s1)`: the held values when ok, else the defaults. -/
def Vals.OrUse {T U : Type} (v : Vals T U) (s0 : T) (s1 : U) : T × U :=
  match v.err with
  | none => (v.v0, v.v1)
  | some _ => (s0, s1)

/-- `HandleReturn()` from handlers.go, as a function from the recovered
payload (`none` when no panic is in progress) to the panic state after the
deferred call: a `panicToReturn` payload is swallowed, anything else is
re-raised, and with no panic in progress it just returns. -/
def HandleReturn (r : Option PanicPayload) : Option PanicPayload :=
  match r with
  | none => none
  | some p =>
    match p with
    | .toReturn _ => none
    | _ => some p

/-- `HandleError(err)` from handlers.go: the second component is the value of
the pointed-to named error return variable after the deferred call.  A
`panicToReturn` payload is swallowed without touching `err`; a `panicToError`
payload is swallowed and its carried error written through the pointer;
anything else is re-raised. -/
def HandleError (r : Option PanicPayload) (err : Option GoError) :
    Option PanicPayload × Option GoError :=
  match r with
  | none => (none, err)
  | some (.toReturn _) => (none, err)
  | some (.toError e) => (none, some e)
  | some p => (some p, err)

/-- `Handle(res)` from handlers.go: the second component is the pointed-to
result container's embedded `base` after the deferred call (`setError` only
touches the `base`).  A `panicToReturn` payload is swallowed without touching
the container; a `panicToError` payload is swallowed and `res.setError(p.err)`
performed; anything else is re-raised. -/
def Handle (r : Option PanicPayload) (res : base) : Option PanicPayload × base :=
  match r with
  | none => (none, res)
  | some (.toReturn _) => (none, res)
  | some (.toError e) => (none, res.setError e)
  | some p => (some p, res)

/-- One function activation on the call stack, identified by the deferred
handler it installed: none, `HandleReturn()`, `HandleError(&err)` (with the
current value of the named error return), or `Handle(&res)` (with the
container's embedded `base`). -/
inductive Frame where
  | fNone
  | fReturn
  | fError (errVar : Option GoError)
  | fRes (res : base)
deriving DecidableEq, Repr

/-- Whether a frame's deferred handler can intercept the `panicToError`
signal: only `Handle` and `HandleError` can. -/
def Frame.catchesError : Frame → Bool
  | .fError _ => true
  | .fRes _ => true
  | _ => false

/-- The effect of a frame's deferred handler on a panic in progress: the
panic state after the deferred call (`none` when recovered) and the updated
frame. -/
def runFrame : Frame → PanicPayload → Option PanicPayload × Frame
  | .fNone, p => (some p, .fNone)
  | .fReturn, p => (HandleReturn (some p), .fReturn)
  | .fError ev, p =>
    let r := HandleError (some p) ev
    (r.1, .fError r.2)
  | .fRes b, p =>
    let r := Handle (some p) b
    (r.1, .fRes r.2)

/-- Go stack unwinding: a panic payload propagates outward through the frames
(innermost first), each frame's deferred handler running in turn, until one
recovers it or it leaves the top of the stack.  Returns the frames after the
unwind and the payload that escaped uncaught, if any. -/
def unwind : PanicPayload → List Frame → List Frame × Option PanicPayload
  | p, [] => ([], some p)
  | p, h :: rest =>
    match runFrame h p with
    | (none, h2) => (h2 :: rest, none)
    | (some p2, h2) =>
      let r := unwind p2 rest
      (h2 :: r.1, r.2)

/-- The frame a `panicToError` signal carrying `x` turns its catching frame
into: `HandleError` writes `x` through the error pointer, `Handle` performs
`setError x` on the container. -/
def Frame.afterCatchError : Frame → GoError → Frame
  | .fError _, x => .fError (some x)
  | .fRes b, x => .fRes (b.setError x)
  | f, _ => f

/-- A frame that cannot catch the error-result signal passes it through
unchanged: `HandleReturn` (and a frame with no handler) re-raises
`panicToError` as-is. -/
theorem runFrame_toError_passes {f : Frame} (hf : f.catchesError = false) (x : GoError) :
    runFrame f (.toError x) = (some (.toError x), f) := by
  cases f <;> simp_all [Frame.catchesError, runFrame, HandleReturn]

/-- A frame that can catch the error-result signal recovers it and records
the carried error. -/
theorem runFrame_toError_catches {f : Frame} (hf : f.catchesError = true) (x : GoError) :
    runFrame f (.toError x) = (none, f.afterCatchError x) := by
  cases f <;> simp_all [Frame.catchesError, runFrame, HandleError, Handle, Frame.afterCatchError]

/-- No frame's deferred handler intercepts a payload that is not one of the
two protocol signal types: it is re-raised unchanged and the frame is left
untouched. -/
theorem runFrame_nonsignal_passes {p : PanicPayload} (hp : isSignal p = false) (f : Frame) :
    runFrame f p = (some p, f) := by
  cases f <;> cases p <;> simp_all [isSignal, runFrame, HandleReturn, HandleError, Handle]

/-- If every frame of a stack passes a payload through unchanged, unwinding
that payload through the stack leaves the stack unchanged and the payload
escapes uncaught at the top. -/
theorem unwind_passes {p : PanicPayload} {l : List Frame}
    (hl : ∀ f ∈ l, runFrame f p = (some p, f)) :
    unwind p l = (l, some p) := by
  induction l with
  | nil => simp [unwind]
  | cons a l2 ih =>
    have ha := hl a (List.mem_cons_self a l2)
    have h2 := ih (fun f hf => hl f (List.mem_cons_of_mem a hf))
    simp [unwind, ha, h2]

/-- If the frames below `h` all pass a payload through and `h`'s deferred
handler recovers it (becoming `h2`), the unwind stops exactly at `h`: frames
below and above are untouched and nothing escapes. -/
theorem unwind_caught_after {p : PanicPayload} {pre : List Frame}
    (hpre : ∀ f ∈ pre, runFrame f p = (some p, f)) {h h2 : Frame}
    (hh : runFrame h p = (none, h2)) (rest : List Frame) :
    unwind p (pre ++ h :: rest) = (pre ++ h2 :: rest, none) := by
  induction pre with
  | nil => simp [unwind, hh]
  | cons a l2 ih =>
    have ha := hpre a (List.mem_cons_self a l2)
    have h3 := ih (fun f hf => hpre f (List.mem_cons_of_mem a hf))
    simp [unwind, ha, h3]

/-- Claim C6: for every container, `Ok()` is true iff the container holds no
error, and `Error()` is `""` on an ok container and exactly the wrapped
error's message otherwise; spelled out for containers made by each kind of
constructor (ok constructors and error constructors). -/
theorem ok_iff_no_error_and_error_message
    (b : base) (e : GoError) (m : String) (T U : Type) [Inhabited T] [Inhabited U]
    (x : T) (y : U) :
    (b.Ok = true ↔ b.err = none) ∧
    (b.err = none → b.Error = "") ∧
    (∀ e2 : GoError, b.err = some e2 → b.Error = e2.Error) ∧
    (Ok.Ok = true ∧ Ok.Error = "") ∧
    ((Error (some e)).Ok = false ∧ (Error (some e)).Error = e.Error) ∧
    ((Errorf m).Ok = false ∧ (Errorf m).Error = m) ∧
    ((Try (some e)).Ok = false ∧ (Try (some e)).Error = e.Error) ∧
    ((Try none).Ok = true ∧ (Try none).Error = "") ∧
    ((NewVal x).Ok = true ∧ (NewVal x).Error = "") ∧
    ((ValError T (some e)).Ok = false ∧ (ValError T (some e)).Error = e.Error) ∧
    ((ValErrorf T m).Ok = false ∧ (ValErrorf T m).Error = m) ∧
    ((TryVal x (some e)).Ok = false ∧ (TryVal x (some e)).Error = e.Error) ∧
    ((TryVal x none).Ok = true ∧ (TryVal x none).Error = "") ∧
    ((NewVals x y).Ok = true ∧ (NewVals x y).Error = "") ∧
    ((ValsError T U (some e)).Ok = false ∧
      (ValsError T U (some e)).Error = e.Error) ∧
    ((ValsErrorf T U m).Ok = false ∧ (ValsErrorf T U m).Error = m) ∧
    ((TryVals x y (some e)).Ok = false ∧
      (TryVals x y (some e)).Error = e.Error) ∧
    ((TryVals x y none).Ok = true ∧ (TryVals x y none).Error = "") := by
  refine ⟨?_, ?_, ?_, ?_, ?_, ?_, ?_, ?_, ?_, ?_, ?_, ?_, ?_, ?_, ?_, ?_, ?_, ?_⟩
  · simp [base.Ok, Option.isNone_iff_eq_none]
  · intro h
    simp [base.Error, h]
  · intro e2 h
    simp [base.Error, h]
  all_goals exact ⟨rfl, rfl⟩

/-- Claim C6 witness: evaluation at a concrete container. -/
theorem ok_iff_no_error_and_error_message_witness :
    ((⟨some ⟨"boom"⟩⟩ : base).Ok = true ↔ (⟨some ⟨"boom"⟩⟩ : base).err = none) ∧
    (base.err ⟨some ⟨"boom"⟩⟩ = none → base.Error ⟨some ⟨"boom"⟩⟩ = "") := by
  have h := ok_iff_no_error_and_error_message ⟨some ⟨"boom"⟩⟩ ⟨"e"⟩ "m" Nat Nat 0 0
  exact ⟨h.1, h.2.1⟩

/-- Claim C9: the error constructors given a nil error produce containers
that are ok: `Ok()` is true and `Error()` is `""`. -/
theorem error_constructors_with_nil_error_yield_ok (T U : Type) [Inhabited T] [Inhabited U] :
    ((Error none).Ok = true ∧ (Error none).Error = "") ∧
    ((ValError T none).Ok = true ∧ (ValError T none).Error = "") ∧
    ((ValsError T U none).Ok = true ∧ (ValsError T U none).Error = "") := by
  exact ⟨⟨rfl, rfl⟩, ⟨rfl, rfl⟩, ⟨rfl, rfl⟩⟩

/-- Claim C9 witness: evaluation at concrete value types. -/
theorem error_constructors_with_nil_error_yield_ok_witness :
    ((Error none).Ok = true ∧ (Error none).Error = "") ∧
    ((ValError Nat none).Ok = true ∧ (ValError Nat none).Error = "") ∧
    ((ValsError Nat String none).Ok = true ∧
      (ValsError Nat String none).Error = "") :=
  error_constructors_with_nil_error_yield_ok Nat String

/-- Claim C8: `OrUse` on an error container returns exactly the supplied
default value(s) (and, returning a plain value rather than panicking, never
unwinds); on an ok container it returns the held value(s), ignoring the
defaults. -/
theorem orUse_default_on_error_held_on_ok
    (T U : Type) (v v2 : Val T) (w w2 : Vals T U) (e : GoError)
    (d : T) (d0 : T) (d1 : U)
    (hv : v.err = some e) (hv2 : v2.err = none)
    (hw : w.err = some e) (hw2 : w2.err = none) :
    v.OrUse d = d ∧
    v2.OrUse d = v2.v ∧
    w.OrUse d0 d1 = (d0, d1) ∧
    w2.OrUse d0 d1 = (w2.v0, w2.v1) := by
  refine ⟨?_, ?_, ?_, ?_⟩ <;> simp [Val.OrUse, Vals.OrUse, hv, hv2, hw, hw2]

/-- Claim C8 witness: evaluation at concrete containers. -/
theorem orUse_default_on_error_held_on_ok_witness :
    (ValError Nat (some ⟨"boom"⟩)).OrUse 7 = 7 ∧
    (NewVal 3).OrUse 7 = 3 ∧
    (ValsError Nat String (some ⟨"boom"⟩)).OrUse 7 "d" = (7, "d") ∧
    (NewVals 1 "a").OrUse 7 "d" = (1, "a") := by
  have h := orUse_default_on_error_held_on_ok Nat String
    (ValError Nat (some ⟨"boom"⟩)) (NewVal 3)
    (ValsError Nat String (some ⟨"boom"⟩)) (NewVals 1 "a")
    ⟨"boom"⟩ 7 7 "d" rfl rfl rfl rfl
  exact h

/-- Claim C10: with no panic in progress (recovered payload nil) each handler
returns normally modifying nothing, and on intercepting the return signal
`HandleError` leaves the pointed-to error unchanged and `Handle` leaves the
result container unchanged. -/
theorem handlers_preserve_state_on_nil_and_return_signal
    (ev : Option GoError) (b : base) (e : GoError) :
    HandleReturn none = none ∧
    HandleError none ev = (none, ev) ∧
    Handle none b = (none, b) ∧
    HandleReturn (some (.toReturn e)) = none ∧
    HandleError (some (.toReturn e)) ev = (none, ev) ∧
    Handle (some (.toReturn e)) b = (none, b) :=
  ⟨rfl, rfl, rfl, rfl, rfl, rfl⟩

/-- Claim C10 witness: evaluation at a concrete error variable, container and
signal. -/
theorem handlers_preserve_state_on_nil_and_return_signal_witness :
    HandleReturn none = none ∧
    HandleError none (some ⟨"kept"⟩) = (none, some ⟨"kept"⟩) ∧
    Handle none ⟨some ⟨"kept"⟩⟩ = (none, ⟨some ⟨"kept"⟩⟩) ∧
    HandleReturn (some (.toReturn ⟨"sig"⟩)) = none ∧
    HandleError (some (.toReturn ⟨"sig"⟩)) (some ⟨"kept"⟩) = (none, some ⟨"kept"⟩) ∧
    Handle (some (.toReturn ⟨"sig"⟩)) ⟨some ⟨"kept"⟩⟩ = (none, ⟨some ⟨"kept"⟩⟩) :=
  handlers_preserve_state_on_nil_and_return_signal (some ⟨"kept"⟩) ⟨some ⟨"kept"⟩⟩ ⟨"sig"⟩

/-- Claim C5: on an error container `OrDoAndReturn(f)` invokes `f` exactly
once with the original held error (the final callback state is a single
application of `f` to that error) and then panics with the return signal
carrying that same original error; on an ok container `f` is never invoked
(the state is returned untouched for every `f`) and the held value(s) are
returned. -/
theorem orDoAndReturn_invokes_once_then_raises_return_signal
    (T U σ : Type) (f : GoError → σ → σ) (st : σ) (e : GoError)
    (s s2 : Status) (v v2 : Val T) (w w2 : Vals T U)
    (hs : s.err = some e) (hs2 : s2.err = none)
    (hv : v.err = some e) (hv2 : v2.err = none)
    (hw : w.err = some e) (hw2 : w2.err = none) :
    s.OrDoAndReturn f st = (f e st, .error (.toReturn e)) ∧
    s2.OrDoAndReturn f st = (st, .ok ()) ∧
    v.OrDoAndReturn f st = (f e st, .error (.toReturn e)) ∧
    v2.OrDoAndReturn f st = (st, .ok v2.v) ∧
    w.OrDoAndReturn f st = (f e st, .error (.toReturn e)) ∧
    w2.OrDoAndReturn f st = (st, .ok (w2.v0, w2.v1)) := by
  refine ⟨?_, ?_, ?_, ?_, ?_, ?_⟩ <;>
    simp [Status.OrDoAndReturn, Val.OrDoAndReturn, Vals.OrDoAndReturn, hs, hs2, hv, hv2, hw, hw2]

/-- Claim C5 witness: with a trace-recording callback, the error case records
exactly one invocation carrying the original error. -/
theorem orDoAndReturn_invokes_once_then_raises_return_signal_witness :
    Status.OrDoAndReturn (Errorf "boom") (fun e2 l => l ++ [e2]) ([] : List GoError)
      = ([⟨"boom"⟩], .error (.toReturn ⟨"boom"⟩)) ∧
    Status.OrDoAndReturn Ok (fun e2 l => l ++ [e2]) ([] : List GoError)
      = ([], .ok ()) ∧
    Val.OrDoAndReturn (NewVal 5) (fun e2 l => l ++ [e2]) ([] : List GoError)
      = ([], .ok 5) := by
  have h := orDoAndReturn_invokes_once_then_raises_return_signal Nat Nat (List GoError)
    (fun e2 l => l ++ [e2]) [] ⟨"boom"⟩
    (Errorf "boom") Ok (ValError Nat (some ⟨"boom"⟩)) (NewVal 5)
    (ValsError Nat Nat (some ⟨"boom"⟩)) (NewVals 1 2)
    rfl rfl rfl rfl rfl rfl
  exact ⟨h.1, h.2.1, h.2.2.2.1⟩

/-- Claim C7: `FromSlice(s, i)` is ok iff `0 <= i < len(s)`; in bounds it
wraps the element `s[i]`, out of bounds it carries exactly the message
`"Index " ++ i ++ " out of bounds for slice of len " ++ len(s)`. -/
theorem fromSlice_ok_iff_in_bounds
    (T : Type) [Inhabited T] (s : List T) (i : Int) :
    ((FromSlice s i).Ok = true ↔ 0 ≤ i ∧ i < (s.length : Int)) ∧
    (∀ (h0 : 0 ≤ i) (h1 : i < (s.length : Int)),
      FromSlice s i = NewVal (s.get ⟨i.toNat, by omega⟩)) ∧
    (i < 0 ∨ (s.length : Int) ≤ i →
      (FromSlice s i).err =
        some ⟨"Index " ++ toString i ++ " out of bounds for slice of len " ++
          toString s.length⟩) := by
  by_cases h : i < 0 ∨ (s.length : Int) ≤ i
  · refine ⟨?_, ?_, ?_⟩
    · simp only [FromSlice, if_pos h, ValError, base.Ok]
      simp only [Option.isNone_some]
      constructor
      · intro hc
        exact absurd hc (by simp)
      · intro hc
        omega
    · intro h0 h1
      omega
    · intro _
      simp [FromSlice, if_pos h, ValError]
  · refine ⟨?_, ?_, ?_⟩
    · simp only [FromSlice, if_neg h, NewVal, base.Ok]
      constructor
      · intro _
        omega
      · intro _
        rfl
    · intro h0 h1
      have hn : i.toNat < s.length := by omega
      simp only [FromSlice, if_neg h, NewVal]
      rw [List.getD_eq_getElem s default hn]
      simp
    · intro hc
      exact absurd hc h

/-- Claim C7 witness: the spec's concrete examples, a length-2 slice at
index 5 (error with the exact message) and at index 0 (ok with value
`"a"`). -/
theorem fromSlice_ok_iff_in_bounds_witness :
    (FromSlice ["a", "b"] 5).err =
      some ⟨"Index 5 out of bounds for slice of len 2"⟩ ∧
    FromSlice ["a", "b"] 0 = NewVal "a" ∧
    ((FromSlice ["a", "b"] 0).Ok = true ↔ (0 : Int) ≤ 0 ∧ (0 : Int) < ((2 : Nat) : Int)) := by
  refine ⟨?_, ?_, ?_⟩
  · have h := (fromSlice_ok_iff_in_bounds String ["a", "b"] 5).2.2 (by decide)
    simpa using h
  · have h := (fromSlice_ok_iff_in_bounds String ["a", "b"] 0).2.1 (by decide) (by decide)
    simpa using h
  · exact (fromSlice_ok_iff_in_bounds String ["a", "b"] 0).1

/-- Claim C1: on an error container `OrError(ctx)` never returns normally —
it panics with the error-result signal carrying
`fmt.Errorf("%v: %v", ctx, err)` — and unwinding that signal through any
frames that are not `Handle`/`HandleError` stops exactly at the nearest
`Handle` or `HandleError` frame, which receives an error whose message is
exactly `ctx ++ ": " ++` the original message, leaving every other frame
untouched; on an ok container `OrError` returns the held value(s). -/
theorem orError_unwinds_to_nearest_catching_handler
    (T U : Type) (ctx : String) (e : GoError)
    (s : Status) (v : Val T) (w : Vals T U)
    (hs : s.err = some e) (hv : v.err = some e) (hw : w.err = some e)
    (s2 : Status) (v2 : Val T) (w2 : Vals T U)
    (hs2 : s2.err = none) (hv2 : v2.err = none) (hw2 : w2.err = none)
    (pre rest : List Frame) (h : Frame)
    (hpre : ∀ f ∈ pre, f.catchesError = false)
    (hh : h.catchesError = true) :
    s.OrError ctx = .error (.toError (fmtCtxErr ctx e)) ∧
    v.OrError ctx = .error (.toError (fmtCtxErr ctx e)) ∧
    w.OrError ctx = .error (.toError (fmtCtxErr ctx e)) ∧
    (fmtCtxErr ctx e).Error = ctx ++ ": " ++ e.Error ∧
    unwind (.toError (fmtCtxErr ctx e)) (pre ++ h :: rest)
      = (pre ++ h.afterCatchError (fmtCtxErr ctx e) :: rest, none) ∧
    s2.OrError ctx = .ok () ∧
    v2.OrError ctx = .ok v2.v ∧
    w2.OrError ctx = .ok (w2.v0, w2.v1) := by
  refine ⟨?_, ?_, ?_, rfl, ?_, ?_, ?_, ?_⟩
  · simp [Status.OrError, hs]
  · simp [Val.OrError, hv]
  · simp [Vals.OrError, hw]
  · exact unwind_caught_after
      (fun f hf => runFrame_toError_passes (hpre f hf) _)
      (runFrame_toError_catches hh _) rest
  · simp [Status.OrError, hs2]
  · simp [Val.OrError, hv2]
  · simp [Vals.OrError, hw2]

/-- Claim C1 witness: an error Status unwinding past a `HandleReturn` frame
into a `HandleError` frame, which receives the chained error; plus the ok
cases. -/
theorem orError_unwinds_to_nearest_catching_handler_witness :
    Status.OrError (Errorf "boom") "ctx" = .error (.toError ⟨"ctx: boom"⟩) ∧
    unwind (.toError ⟨"ctx: boom"⟩) [Frame.fReturn, Frame.fError none, Frame.fRes ⟨none⟩]
      = ([Frame.fReturn, Frame.fError (some ⟨"ctx: boom"⟩), Frame.fRes ⟨none⟩], none) ∧
    Val.OrError (NewVal 3) "ctx" = .ok 3 := by
  have h := orError_unwinds_to_nearest_catching_handler Nat Nat "ctx" ⟨"boom"⟩
    (Errorf "boom") (ValError Nat (some ⟨"boom"⟩)) (ValsError Nat Nat (some ⟨"boom"⟩))
    rfl rfl rfl
    Ok (NewVal 3) (NewVals 1 2) rfl rfl rfl
    [Frame.fReturn] [Frame.fRes ⟨none⟩] (Frame.fError none)
    (by decide) rfl
  refine ⟨?_, ?_, ?_⟩
  · have h1 := h.1
    simpa [fmtCtxErr] using h1
  · have h5 := h.2.2.2.2.1
    simpa [fmtCtxErr, Frame.afterCatchError] using h5
  · exact h.2.2.2.2.2.2.1

/-- Claim C3: a frame that installed only `HandleReturn` re-raises the
error-result signal unchanged rather than intercepting it, so through any
stack containing no `Handle`/`HandleError` frame the signal escapes uncaught
with every frame untouched, and the process-level failure it surfaces as is
the `panicToError` protocol-misuse message. -/
theorem handleReturn_reraises_error_signal
    (x : GoError) (stack : List Frame)
    (hstack : ∀ f ∈ stack, f.catchesError = false) :
    HandleReturn (some (.toError x)) = some (.toError x) ∧
    runFrame .fReturn (.toError x) = (some (.toError x), .fReturn) ∧
    unwind (.toError x) stack = (stack, some (.toError x)) ∧
    PanicPayload.errorMessage (.toError x) = panicToErrorMessage x := by
  refine ⟨rfl, rfl, ?_, rfl⟩
  exact unwind_passes (fun f hf => runFrame_toError_passes (hstack f hf) _)

/-- Claim C3 witness: the error-result signal passes two `HandleReturn`
frames and a bare frame uncaught. -/
theorem handleReturn_reraises_error_signal_witness :
    HandleReturn (some (.toError ⟨"ctx: boom"⟩)) = some (.toError ⟨"ctx: boom"⟩) ∧
    unwind (.toError ⟨"ctx: boom"⟩) [Frame.fReturn, Frame.fNone, Frame.fReturn]
      = ([Frame.fReturn, Frame.fNone, Frame.fReturn], some (.toError ⟨"ctx: boom"⟩)) := by
  have h := handleReturn_reraises_error_signal ⟨"ctx: boom"⟩
    [Frame.fReturn, Frame.fNone, Frame.fReturn] (by decide)
  exact ⟨h.1, h.2.2.1⟩

/-- Claim C4: every handler re-raises unchanged any recovered payload that is
not one of the two protocol signal types, leaving its own state untouched;
in particular `OrPanic(ctx)` on an error container panics with an ordinary
error (message `ctx ++ ": " ++` original) that is not a signal, so it
escapes every stack of frames uncaught no matter which handlers are
installed. -/
theorem handlers_reraise_foreign_payloads_orPanic_uncatchable
    (T U : Type) (p : PanicPayload) (hp : isSignal p = false)
    (ev : Option GoError) (b : base) (stack stack2 : List Frame)
    (ctx : String) (e : GoError)
    (s : Status) (v : Val T) (w : Vals T U)
    (hs : s.err = some e) (hv : v.err = some e) (hw : w.err = some e) :
    HandleReturn (some p) = some p ∧
    HandleError (some p) ev = (some p, ev) ∧
    Handle (some p) b = (some p, b) ∧
    unwind p stack = (stack, some p) ∧
    s.OrPanic ctx = .error (.errValue (fmtCtxErr ctx e)) ∧
    v.OrPanic ctx = .error (.errValue (fmtCtxErr ctx e)) ∧
    w.OrPanic ctx = .error (.errValue (fmtCtxErr ctx e)) ∧
    (fmtCtxErr ctx e).Error = ctx ++ ": " ++ e.Error ∧
    isSignal (.errValue (fmtCtxErr ctx e)) = false ∧
    unwind (.errValue (fmtCtxErr ctx e)) stack2
      = (stack2, some (.errValue (fmtCtxErr ctx e))) := by
  refine ⟨?_, ?_, ?_, ?_, ?_, ?_, ?_, rfl, rfl, ?_⟩
  · cases p <;> simp_all [isSignal, HandleReturn]
  · cases p <;> simp_all [isSignal, HandleError]
  · cases p <;> simp_all [isSignal, Handle]
  · exact unwind_passes (fun f _ => runFrame_nonsignal_passes hp f)
  · simp [Status.OrPanic, hs]
  · simp [Val.OrPanic, hv]
  · simp [Vals.OrPanic, hw]
  · exact unwind_passes (fun f _ => @runFrame_nonsignal_passes (.errValue (fmtCtxErr ctx e)) rfl f)

/-- Claim C4 witness: the `OrPanic` payload escapes a stack with all three
handler kinds installed, each handler passing it through unchanged. -/
theorem handlers_reraise_foreign_payloads_orPanic_uncatchable_witness :
    Status.OrPanic (Errorf "boom") "ctx" = .error (.errValue ⟨"ctx: boom"⟩) ∧
    unwind (.errValue ⟨"ctx: boom"⟩)
        [Frame.fReturn, Frame.fError none, Frame.fRes ⟨none⟩]
      = ([Frame.fReturn, Frame.fError none, Frame.fRes ⟨none⟩],
          some (.errValue ⟨"ctx: boom"⟩)) ∧
    HandleError (some (.other "app panic")) (some ⟨"kept"⟩)
      = (some (.other "app panic"), some ⟨"kept"⟩) := by
  have h := handlers_reraise_foreign_payloads_orPanic_uncatchable Nat Nat
    (.other "app panic") rfl (some ⟨"kept"⟩) ⟨none⟩
    [Frame.fReturn] [Frame.fReturn, Frame.fError none, Frame.fRes ⟨none⟩]
    "ctx" ⟨"boom"⟩
    (Errorf "boom") (ValError Nat (some ⟨"boom"⟩)) (ValsError Nat Nat (some ⟨"boom"⟩))
    rfl rfl rfl
  refine ⟨?_, ?_, h.2.1⟩
  · have h5 := h.2.2.2.2.1
    simpa [fmtCtxErr] using h5
  · have h10 := h.2.2.2.2.2.2.2.2.2
    simpa [fmtCtxErr] using h10

/-- Claim C2 (code bug): the messages the process-level fallback reports for
uncaught protocol signals.  The actual messages direct the user to
`result.HandleStatus(&v)` and `result.HandleErr(&err)` — names the package
does not export — instead of the actual missing directives
`result.Handle` / `result.HandleError`, so they differ from the strings the
repository's own updated errors test expects (only the error-result message
chains the original error text, as claimed). -/
theorem fallback_messages_use_stale_handler_names :
    panicToReturnMessage =
      "Unrecovered panic from result. Use `defer result.HandleReturn()`, `defer result.HandleStatus(&v)`, or `defer result.HandleErr(&err)` at the top of the func to convert the panic into a return" ∧
    panicToErrorMessage ⟨"Expected error: Test error"⟩ =
      "Unrecovered panic from result. Use `defer result.HandleStatus(&v)` or `defer result.HandleErr(&err)` at the top of the func to convert the panic into a returned result or error: Expected error: Test error" ∧
    PanicPayload.errorMessage (.toError ⟨"Expected error: Test error"⟩) =
      panicToErrorMessage ⟨"Expected error: Test error"⟩ ∧
    panicToReturnMessage ≠
      "Unrecovered panic from result. Use `defer result.HandleReturn()`, `defer result.Handle(&r)`, or `defer result.HandleError(&err)` at the top of the func to convert the panic into a return" ∧
    panicToErrorMessage ⟨"Expected error: Test error"⟩ ≠
      "Unrecovered panic from result. Use `defer result.Handle(&r)` or `defer result.HandleError(&err)` at the top of the func to convert the panic into a returned result or error: Expected error: Test error" := by
  refine ⟨rfl, rfl, rfl, ?_, ?_⟩ <;> decide

end result
